import Mathlib

/-!
Shallow embedding of `examples/financial_research_agent` (manager.py, main.py):
a four-stage research pipeline (Plan → Search → Synthesize → Verify).
External collaborators (the agents SDK `Runner`, wall-clock time, the event
stream) are modelled as explicit parameters: each `Runner.run` call outcome is
an `Except String _` argument, `time.time()` readings are the `Nat` timestamps
observed at each stream event, and `asyncio.as_completed` is modelled by
passing the tasks in their completion order.
-/

/-- Attribute values set on OpenTelemetry spans by manager.py. -/
inductive AttrValue
| str : String → AttrValue
| nat : Nat → AttrValue
| bool : Bool → AttrValue
deriving DecidableEq, Repr

/-- A trace span: name, attributes in the order they were set, recorded
exceptions, and an optional ERROR status message (`span.set_status`). -/
structure Span where
  name : String
  attrs : List (String × AttrValue)
  exceptions : List String
  errorStatus : Option String
deriving DecidableEq, Repr

/-- Embeds `tracer.start_as_current_span(name)`: a fresh span. -/
def Span.start (n : String) : Span := ⟨n, [], [], none⟩

/-- Embeds `span.set_attribute(key, value)`. -/
def Span.setAttr (s : Span) (k : String) (v : AttrValue) : Span :=
  { s with attrs := s.attrs ++ [(k, v)] }

/-- Embeds `span.record_exception(e)` (the exception rendered as a string). -/
def Span.recordException (s : Span) (e : String) : Span :=
  { s with exceptions := s.exceptions ++ [e] }

/-- Embeds `span.set_status(Status(StatusCode.ERROR, str(e)))`. -/
def Span.setErrorStatus (s : Span) (e : String) : Span :=
  { s with errorStatus := some e }

/-- Operations performed on the `Printer` progress display, in order. -/
inductive PrinterOp
| updateItem (id text : String) ( is_done hide_checkmark : Bool)
| markItemDone (id : String)
| printerEnd
deriving DecidableEq, Repr

/-- An agent as seen by manager.py: only its `.model` attribute is read. -/
structure Agent where
  name : String
  model : String
deriving DecidableEq, Repr

/-- Modelled from the spec: the agent modules (`planner_agent` and friends) are
not under src; manager.py reads only their `.model` identifier, so each is an
opaque record whose `model` string stands for that identifier. -/
def planner_agent : Agent := ⟨"planner_agent", "planner-model"⟩

/-- Modelled from the spec: see `planner_agent`. -/
def search_agent : Agent := ⟨"search_agent", "search-model"⟩

/-- Modelled from the spec: see `planner_agent`. -/
def writer_agent : Agent := ⟨"writer_agent", "writer-model"⟩

/-- Modelled from the spec: see `planner_agent`. -/
def verifier_agent : Agent := ⟨"verifier_agent", "verifier-model"⟩

/-- `FinancialSearchItem`: one planned search (`query`, `reason`). -/
structure FinancialSearchItem where
  query : String
  reason : String
deriving DecidableEq, Repr

/-- `FinancialSearchPlan`: the ordered searches produced by the Plan stage. -/
structure FinancialSearchPlan where
  searches : List FinancialSearchItem
deriving DecidableEq, Repr

/-- `FinancialReportData` as consumed by manager.py. -/
structure FinancialReportData where
  short_summary : String
  markdown_report : String
  follow_up_questions : List String
deriving DecidableEq, Repr

/-- `VerificationResult`: manager.py reads only the `verified` flag. -/
structure VerificationResult where
  verified : Bool
deriving DecidableEq, Repr

/-- Everything observable from one `_search(item)` task: its own span, the
input handed to `Runner.run`, and the returned value (`str | None`). The
return type `Option String` (not `Except`) embeds the fact that the task's
`try/except Exception` catches every executor failure. -/
structure SearchTaskOutcome where
  span : Span
  executorInput : String
  output : Option String
deriving DecidableEq, Repr

/-- Embeds `FinancialResearchManager._search` (manager.py lines 133-147).
`runner` is the outcome of the `Runner.run(search_agent, input_data)` call:
`ok` carries `str(result.final_output)`, `error` the raised exception text. -/
def search_task (item : FinancialSearchItem) (runner : Except String String) :
    SearchTaskOutcome :=
  let span0 := (((Span.start "financial_research.search").setAttr
    "search.query" (.str item.query)).setAttr
    "search.reason" (.str item.reason)).setAttr
    "agent_model" (.str search_agent.model)
  let input_data := "Search term: " ++ item.query ++ "\nReason: " ++ item.reason
  match runner with
  | .ok o =>
      { span := span0.setAttr "search.success" (.bool true)
        executorInput := input_data
        output := some o }
  | .error e =>
      { span := (((span0.setAttr "search.success" (.bool false)).recordException
          e).setErrorStatus e)
        executorInput := input_data
        output := none }

/-- Accumulator state of the `for task in asyncio.as_completed(tasks)` loop in
`_perform_searches`. -/
structure DrainState where
  results : List String
  num_completed : Nat
  num_failed : Nat
  printerLog : List PrinterOp
deriving DecidableEq, Repr

/-- One iteration of the fan-in loop (manager.py lines 118-127): `r` is the
awaited task's value. -/
def drain_step (total : Nat) (s : DrainState) (r : Option String) : DrainState :=
  let s1 :=
    match r with
    | some text => { s with results := s.results ++ [text] }
    | none => { s with num_failed := s.num_failed + 1 }
  let s2 := { s1 with num_completed := s1.num_completed + 1 }
  { s2 with printerLog := s2.printerLog ++
      [.updateItem "searching"
        ("Searching... " ++ toString s2.num_completed ++ "/" ++ toString total
          ++ " completed") false false] }

/-- The whole fan-in loop, folding `drain_step` over the awaited values in
completion order. -/
def drain_loop (total : Nat) (rs : List (Option String)) (s : DrainState) :
    DrainState :=
  rs.foldl (drain_step total) s

/-- Initial accumulator state, after the `"Searching..."` progress line. -/
def drain_init : DrainState :=
  { results := [], num_completed := 0, num_failed := 0
    printerLog := [.updateItem "searching" "Searching..." false false] }

/-- Observables of the whole Search stage. -/
structure SearchStageResult where
  span : Span
  printerLog : List PrinterOp
  results : List String
  num_completed : Nat
  num_failed : Nat
  taskOutcomes : List SearchTaskOutcome
deriving DecidableEq, Repr

/-- Embeds `FinancialResearchManager._perform_searches` (manager.py lines
110-131). One task is created per plan item; `completion` lists the tasks in
the order `asyncio.as_completed` yields them, pairing each item with its
executor call's outcome. That `completion` enumerates exactly the created
tasks is a property of the scheduler, assumed as a hypothesis in theorems. -/
def perform_searches (search_plan : FinancialSearchPlan)
    (completion : List (FinancialSearchItem × Except String String)) :
    SearchStageResult :=
  let span0 := (Span.start "financial_research.perform_searches").setAttr
    "num_searches_total" (.nat search_plan.searches.length)
  let tasks := completion.map (fun p => search_task p.1 p.2)
  let final := drain_loop search_plan.searches.length (tasks.map (·.output))
    drain_init
  { span := (span0.setAttr "num_searches_completed"
        (.nat final.results.length)).setAttr
        "num_searches_failed" (.nat final.num_failed)
    printerLog := final.printerLog ++ [.markItemDone "searching"]
    results := final.results
    num_completed := final.num_completed
    num_failed := final.num_failed
    taskOutcomes := tasks }

/-- State of the progress-message bookkeeping inside `_write_report`'s
`async for` loop: the `last_update` clock reading, the `next_message` index,
plus logs of the printer calls, the messages shown and the times they were
shown at. -/
structure WriteProgress where
  last_update : Nat
  next_message : Nat
  printerLog : List PrinterOp
  shown : List String
  showTimes : List Nat
deriving DecidableEq, Repr

/-- The fixed `update_messages` list of manager.py lines 170-174. -/
def update_messages : List String :=
  ["Planning report structure...", "Writing sections...", "Finalizing report..."]

/-- One iteration of the `async for _ in result.stream_events()` loop
(manager.py lines 177-181), at an event observed when `time.time()` reads
`t`. Nothing happens unless more than 5 seconds elapsed since `last_update`
and an unshown message remains. -/
def write_stream_step (s : WriteProgress) (t : Nat) : WriteProgress :=
  if t - s.last_update > 5 ∧ s.next_message < update_messages.length then
    let msg := update_messages.getD s.next_message ""
    { last_update := t
      next_message := s.next_message + 1
      printerLog := s.printerLog ++ [.updateItem "writing" msg false false]
      shown := s.shown ++ [msg]
      showTimes := s.showTimes ++ [t] }
  else s

/-- The whole stream-consumption loop: `ts` is the list of `time.time()`
readings at the successive stream events (empty when the stream yields no
events). -/
def write_stream_loop (ts : List Nat) (s : WriteProgress) : WriteProgress :=
  ts.foldl write_stream_step s

/-- Initial progress state: `last_update = time.time()` read at `t0`,
`next_message = 0`, after the `"Thinking about report..."` line. -/
def write_progress_init (t0 : Nat) : WriteProgress :=
  { last_update := t0, next_message := 0
    printerLog := [.updateItem "writing" "Thinking about report..." false false]
    shown := [], showTimes := [] }

/-- Python's `str()` of a list of strings (as interpolated by the f-string in
manager.py line 168), for strings without characters needing escapes. -/
def pyStrListRepr (l : List String) : String :=
  let q := String.singleton (Char.ofNat 39)
  "[" ++ String.intercalate ", " (l.map (fun s => q ++ s ++ q)) ++ "]"

/-- Observables of the Synthesize stage. -/
structure WriteStageResult where
  span : Span
  printerLog : List PrinterOp
  toolNames : List String
  search_results_arg : List String
  input_data : String
  shown : List String
  showTimes : List Nat
  report : FinancialReportData
deriving DecidableEq, Repr

/-- Embeds `FinancialResearchManager._write_report` (manager.py lines
149-185). `t0` is the clock at `last_update = time.time()`, `ts` the clock
readings at the stream events, and `writerResult` the streamed run's final
structured outcome (`error` when streaming or `final_output_as` fails, which
propagates). -/
def write_report (query : String) (search_results : List String) (t0 : Nat)
    (ts : List Nat) (writerResult : Except String FinancialReportData) :
    Except String WriteStageResult :=
  let span0 := (((Span.start "financial_research.write_report").setAttr
    "query" (.str query)).setAttr
    "num_search_results" (.nat search_results.length)).setAttr
    "agent_model" (.str writer_agent.model)
  let input_data := "Original query: " ++ query ++
    "\nSummarized search results: " ++ pyStrListRepr search_results
  let final := write_stream_loop ts (write_progress_init t0)
  match writerResult with
  | .error e => .error e
  | .ok report =>
      .ok { span := span0.setAttr "report.length" (.nat report.markdown_report.length)
            printerLog := final.printerLog ++ [.markItemDone "writing"]
            toolNames := ["fundamentals_analysis", "risk_analysis"]
            search_results_arg := search_results
            input_data := input_data
            shown := final.shown
            showTimes := final.showTimes
            report := report }

/-- Observables of the Verify stage. -/
structure VerifyStageResult where
  span : Span
  printerLog : List PrinterOp
  executorInput : String
  verification : VerificationResult
deriving DecidableEq, Repr

/-- Embeds `FinancialResearchManager._verify_report` (manager.py lines
187-195). `runner` is the outcome of `Runner.run(verifier_agent,
report.markdown_report)` combined with `final_output_as(VerificationResult)`;
its failure propagates. -/
def verify_report (report : FinancialReportData)
    (runner : Except String VerificationResult) :
    Except String VerifyStageResult :=
  let span0 := (Span.start "financial_research.verify_report").setAttr
    "agent_model" (.str verifier_agent.model)
  match runner with
  | .error e => .error e
  | .ok verification =>
      .ok { span := span0.setAttr "verification.passed" (.bool verification.verified)
            printerLog := [.updateItem "verifying" "Verifying report..." false false,
              .markItemDone "verifying"]
            executorInput := report.markdown_report
            verification := verification }

/-- Observables of the Plan stage. -/
structure PlanStageResult where
  span : Span
  printerLog : List PrinterOp
  plan : FinancialSearchPlan
deriving DecidableEq, Repr

/-- Embeds `FinancialResearchManager._plan_searches` (manager.py lines
95-108). `runner` is `Runner.run(planner_agent, ...)` combined with
`final_output_as(FinancialSearchPlan)`; its failure propagates. -/
def plan_searches (query : String)
    (runner : Except String FinancialSearchPlan) :
    Except String PlanStageResult :=
  let span0 := ((Span.start "financial_research.plan_searches").setAttr
    "query" (.str query)).setAttr "agent_model" (.str planner_agent.model)
  match runner with
  | .error e => .error e
  | .ok plan =>
      .ok { span := span0.setAttr "num_searches_planned" (.nat plan.searches.length)
            printerLog := [.updateItem "planning" "Planning searches..." false false,
              .updateItem "planning"
                ("Will perform " ++ toString plan.searches.length ++ " searches")
                true false]
            plan := plan }

/-- Modelled from the spec: `print(verification)` renders the pydantic
`VerificationResult` (a module not under src) as its field assignments; only
the `verified` flag is modelled. -/
def renderVerification (v : VerificationResult) : String :=
  "verified=" ++ (if v.verified then "True" else "False")

/-- Everything observable from one successful `run(query)`. -/
structure RunTrace where
  runSpan : Span
  printerLog : List PrinterOp
  planStage : PlanStageResult
  searchStage : SearchStageResult
  writeStage : WriteStageResult
  verifyStage : VerifyStageResult
  stdoutLines : List String
deriving Repr

/-- Embeds `FinancialResearchManager.run` (manager.py lines 67-93): the four
stages in order, threading each stage's output into the next, then the final
progress line, `printer.end()`, and the stdout prints. A stage-fatal failure
short-circuits as `.error`. -/
def manager_run (query : String)
    (plannerResult : Except String FinancialSearchPlan)
    (completion : List (FinancialSearchItem × Except String String))
    (t0 : Nat) (ts : List Nat)
    (writerResult : Except String FinancialReportData)
    (verifierResult : Except String VerificationResult) :
    Except String RunTrace :=
  let runSpan := (Span.start "financial_research.run").setAttr "query" (.str query)
  let pre : List PrinterOp :=
    [.updateItem "trace_id" "Financial research trace started" true true,
     .updateItem "start" "Starting financial research..." true false]
  match plan_searches query plannerResult with
  | .error e => .error e
  | .ok planStage =>
    let searchStage := perform_searches planStage.plan completion
    match write_report query searchStage.results t0 ts writerResult with
    | .error e => .error e
    | .ok writeStage =>
      match verify_report writeStage.report verifierResult with
      | .error e => .error e
      | .ok verifyStage =>
        let final_report := "Report summary\n\n" ++ writeStage.report.short_summary
        .ok { runSpan := runSpan
              printerLog := pre ++ planStage.printerLog ++ searchStage.printerLog
                ++ writeStage.printerLog ++ verifyStage.printerLog
                ++ [.updateItem "final_report" final_report true false]
                ++ [.printerEnd]
              planStage := planStage
              searchStage := searchStage
              writeStage := writeStage
              verifyStage := verifyStage
              stdoutLines := ["\n\n=====REPORT=====\n\n",
                "Report:\n" ++ writeStage.report.markdown_report,
                "\n\n=====FOLLOW UP QUESTIONS=====\n\n",
                String.intercalate "\n" writeStage.report.follow_up_questions,
                "\n\n=====VERIFICATION=====\n\n",
                renderVerification verifyStage.verification] }

/-- Observable behaviour of the process entry point. -/
structure MainBehavior where
  readStdin : Bool
  query : String
deriving DecidableEq, Repr

/-- Embeds `main` of main.py (lines 31-40). The source function takes no
command-line query argument: `query = input(...)` runs unconditionally. To
settle claims about an optional argument, the entry point is modelled over the
possibly present argument and the stdin line; the source body ignores the
former and always consumes the latter. -/
def main_entry (_argvQuery : Option String) (stdinLine : String) : MainBehavior :=
  { readStdin := true, query := stdinLine }

/-- Invariant of the progress-message state inside `_write_report`'s stream
loop: the shown messages are the first `next_message` entries of
`update_messages`, one show time is logged per shown message, successive show
times (seeded with the loop-entry clock `t0`) are more than 5 seconds apart,
and `last_update` is the time of the latest show (or `t0`). -/
def WriteInv (t0 : Nat) (s : WriteProgress) : Prop :=
  s.next_message = s.shown.length ∧
  s.shown = update_messages.take s.next_message ∧
  s.showTimes.length = s.shown.length ∧
  List.Chain' (fun a b => a + 5 < b) (t0 :: s.showTimes) ∧
  s.last_update = s.showTimes.getLastD t0

/-! Helper lemmas about the Search-stage fan-in loop. -/

theorem drain_step_some (total : Nat) (s : DrainState) (t : String) :
    drain_step total s (some t) =
      { results := s.results ++ [t]
        num_completed := s.num_completed + 1
        num_failed := s.num_failed
        printerLog := s.printerLog ++
          [.updateItem "searching"
            ("Searching... " ++ toString (s.num_completed + 1) ++ "/"
              ++ toString total ++ " completed") false false] } := rfl

theorem drain_step_none (total : Nat) (s : DrainState) :
    drain_step total s none =
      { results := s.results
        num_completed := s.num_completed + 1
        num_failed := s.num_failed + 1
        printerLog := s.printerLog ++
          [.updateItem "searching"
            ("Searching... " ++ toString (s.num_completed + 1) ++ "/"
              ++ toString total ++ " completed") false false] } := rfl

theorem drain_loop_num_completed (total : Nat) (rs : List (Option String)) :
    ∀ s : DrainState,
      (drain_loop total rs s).num_completed = s.num_completed + rs.length := by
  induction rs with
  | nil => intro s; simp [drain_loop]
  | cons r rs ih =>
      intro s
      have step : drain_loop total (r :: rs) s = drain_loop total rs (drain_step total s r) := rfl
      rw [step, ih]
      cases r with
      | some t => rw [drain_step_some]; simp; omega
      | none => rw [drain_step_none]; simp; omega

theorem drain_loop_balance (total : Nat) (rs : List (Option String)) :
    ∀ s : DrainState,
      (drain_loop total rs s).results.length + (drain_loop total rs s).num_failed =
        s.results.length + s.num_failed + rs.length := by
  induction rs with
  | nil => intro s; simp [drain_loop]
  | cons r rs ih =>
      intro s
      have step : drain_loop total (r :: rs) s = drain_loop total rs (drain_step total s r) := rfl
      rw [step, ih]
      cases r with
      | some t => rw [drain_step_some]; simp; omega
      | none => rw [drain_step_none]; simp; omega

theorem drain_loop_results (total : Nat) (rs : List (Option String)) :
    ∀ s : DrainState,
      (drain_loop total rs s).results = s.results ++ rs.filterMap id := by
  induction rs with
  | nil => intro s; simp [drain_loop]
  | cons r rs ih =>
      intro s
      have step : drain_loop total (r :: rs) s = drain_loop total rs (drain_step total s r) := rfl
      rw [step, ih]
      cases r with
      | some t => rw [drain_step_some]; simp
      | none => rw [drain_step_none]; simp

theorem perform_searches_num_completed (search_plan : FinancialSearchPlan)
    (completion : List (FinancialSearchItem × Except String String)) :
    (perform_searches search_plan completion).num_completed = completion.length := by
  show (drain_loop _ _ drain_init).num_completed = _
  rw [drain_loop_num_completed]
  simp [drain_init]

theorem perform_searches_balance (search_plan : FinancialSearchPlan)
    (completion : List (FinancialSearchItem × Except String String)) :
    (perform_searches search_plan completion).results.length +
      (perform_searches search_plan completion).num_failed = completion.length := by
  show (drain_loop _ _ drain_init).results.length + (drain_loop _ _ drain_init).num_failed = _
  rw [drain_loop_balance]
  simp [drain_init]

theorem perform_searches_results (search_plan : FinancialSearchPlan)
    (completion : List (FinancialSearchItem × Except String String)) :
    (perform_searches search_plan completion).results =
      completion.filterMap (fun p => (search_task p.1 p.2).output) := by
  show (drain_loop _ _ drain_init).results = _
  rw [drain_loop_results]
  simp [drain_init, List.filterMap_map]
  rfl

theorem search_task_output_of_error (item : FinancialSearchItem) (e : String) :
    (search_task item (.error e)).output = none := rfl

theorem search_task_output_none_of_notOk (item : FinancialSearchItem)
    (r : Except String String) (h : r.isOk = false) :
    (search_task item r).output = none := by
  cases r with
  | ok o => simp [Except.isOk, Except.toBool] at h
  | error e => rfl

/-- C1: for a plan with N items the fan-in loop of `_perform_searches` awaits
exactly N task outcomes (one per `SearchItem`, whether it succeeded or
failed), and at drain end `num_completed = len(results) + num_failed`. The
hypothesis states what `asyncio.create_task` plus `asyncio.as_completed`
guarantee: the completion order enumerates exactly the plan's items. -/
theorem search_stage_drains_all (search_plan : FinancialSearchPlan)
    (completion : List (FinancialSearchItem × Except String String))
    (h : List.Perm (completion.map Prod.fst) search_plan.searches) :
    (perform_searches search_plan completion).num_completed =
        search_plan.searches.length ∧
    (perform_searches search_plan completion).num_completed =
      (perform_searches search_plan completion).results.length +
        (perform_searches search_plan completion).num_failed := by
  have hlen : completion.length = search_plan.searches.length := by
    have := h.length_eq
    simpa using this
  constructor
  · rw [perform_searches_num_completed, hlen]
  · rw [perform_searches_num_completed, perform_searches_balance]

/-- Witness for C1: a two-item plan whose tasks complete in reverse order,
the second one failing. -/
theorem search_stage_drains_all_witness :
    List.Perm
      (([(⟨"b", "r2"⟩, Except.ok "text"),
         (⟨"a", "r1"⟩, Except.error "boom")] :
          List (FinancialSearchItem × Except String String)).map Prod.fst)
      [⟨"a", "r1"⟩, ⟨"b", "r2"⟩] ∧
    ((perform_searches ⟨[⟨"a", "r1"⟩, ⟨"b", "r2"⟩]⟩
        [(⟨"b", "r2"⟩, Except.ok "text"),
         (⟨"a", "r1"⟩, Except.error "boom")]).num_completed =
      ([⟨"a", "r1"⟩, ⟨"b", "r2"⟩] : List FinancialSearchItem).length ∧
     (perform_searches ⟨[⟨"a", "r1"⟩, ⟨"b", "r2"⟩]⟩
        [(⟨"b", "r2"⟩, Except.ok "text"),
         (⟨"a", "r1"⟩, Except.error "boom")]).num_completed =
      (perform_searches ⟨[⟨"a", "r1"⟩, ⟨"b", "r2"⟩]⟩
        [(⟨"b", "r2"⟩, Except.ok "text"),
         (⟨"a", "r1"⟩, Except.error "boom")]).results.length +
      (perform_searches ⟨[⟨"a", "r1"⟩, ⟨"b", "r2"⟩]⟩
        [(⟨"b", "r2"⟩, Except.ok "text"),
         (⟨"a", "r1"⟩, Except.error "boom")]).num_failed) :=
  ⟨by decide,
   search_stage_drains_all ⟨[⟨"a", "r1"⟩, ⟨"b", "r2"⟩]⟩
     [(⟨"b", "r2"⟩, Except.ok "text"), (⟨"a", "r1"⟩, Except.error "boom")]
     (by decide)⟩

/-- C2: when the executor call of one `_search` task raises, `_search` does
not propagate the exception (its result type is `Option String`, with `none`
the Failed sentinel): it records the exception and the ERROR status on that
task's own span, marks `search.success = False`, and returns `none`. -/
theorem search_task_failure_isolated (item : FinancialSearchItem) (e : String) :
    (search_task item (.error e)).output = none ∧
    (search_task item (.error e)).span.exceptions = [e] ∧
    (search_task item (.error e)).span.errorStatus = some e ∧
    ("search.success", AttrValue.bool false) ∈ (search_task item (.error e)).span.attrs := by
  refine ⟨rfl, rfl, rfl, ?_⟩
  simp [search_task, Span.start, Span.setAttr, Span.recordException, Span.setErrorStatus]

/-- C4: the Search stage's returned sequence is exactly the successful texts
in task completion order — the `filterMap` of the completion-ordered outcomes,
not of the plan (submission) order. -/
theorem search_results_in_completion_order (search_plan : FinancialSearchPlan)
    (completion : List (FinancialSearchItem × Except String String)) :
    (perform_searches search_plan completion).results =
      completion.filterMap (fun p => (search_task p.1 p.2).output) :=
  perform_searches_results search_plan completion

/-- C9: after the fan-in drains, the stage span carries
`num_searches_total = len(plan.searches)` (set before the drain),
`num_searches_completed = len(results)` (the successes, not the tasks
drained), and `num_searches_failed = num_failed`. -/
theorem search_stage_span_attributes (search_plan : FinancialSearchPlan)
    (completion : List (FinancialSearchItem × Except String String)) :
    (perform_searches search_plan completion).span.attrs =
      [("num_searches_total", AttrValue.nat search_plan.searches.length),
       ("num_searches_completed",
         AttrValue.nat (perform_searches search_plan completion).results.length),
       ("num_searches_failed",
         AttrValue.nat (perform_searches search_plan completion).num_failed)] := rfl

/-- C3: when every search task fails, the Search stage returns the empty
sequence and `run` still calls `_write_report` with that empty sequence — the
run succeeds end to end, with no early abort or minimum-search-count check
between Search and Synthesize. -/
theorem run_zero_successes_still_synthesizes (query : String)
    (plan : FinancialSearchPlan)
    (completion : List (FinancialSearchItem × Except String String))
    (t0 : Nat) (ts : List Nat) (report : FinancialReportData)
    (v : VerificationResult)
    (h : ∀ p ∈ completion, (Prod.snd p).isOk = false) :
    ∃ tr, manager_run query (.ok plan) completion t0 ts (.ok report) (.ok v) = .ok tr ∧
      tr.searchStage.results = [] ∧
      tr.writeStage.search_results_arg = [] := by
  have hres : (perform_searches plan completion).results = [] := by
    rw [perform_searches_results]
    rw [List.filterMap_eq_nil_iff]
    intro p hp
    exact search_task_output_none_of_notOk p.1 p.2 (h p hp)
  refine ⟨_, rfl, hres, ?_⟩
  show (perform_searches plan completion).results = []
  exact hres

/-- Witness for C3: a one-item plan whose single task raises. -/
theorem run_zero_successes_still_synthesizes_witness :
    (∀ p ∈ ([(⟨"a", "r"⟩, Except.error "boom")] :
        List (FinancialSearchItem × Except String String)),
      (Prod.snd p).isOk = false) ∧
    ∃ tr, manager_run "q" (.ok ⟨[⟨"a", "r"⟩]⟩)
        [(⟨"a", "r"⟩, Except.error "boom")] 0 [] (.ok ⟨"s", "m", []⟩)
        (.ok ⟨true⟩) = .ok tr ∧
      tr.searchStage.results = [] ∧
      tr.writeStage.search_results_arg = [] :=
  ⟨by decide,
   run_zero_successes_still_synthesizes "q" ⟨[⟨"a", "r"⟩]⟩
     [(⟨"a", "r"⟩, Except.error "boom")] 0 [] ⟨"s", "m", []⟩ ⟨true⟩ (by decide)⟩

/-- C6: `_verify_report` hands the executor exactly the report's
`markdown_report` string, and its span carries the verifier's model id and
the `verified` flag of the structured result. -/
theorem verify_report_exact_input (report : FinancialReportData)
    (v : VerificationResult) :
    ∃ r, verify_report report (.ok v) = .ok r ∧
      r.executorInput = report.markdown_report ∧
      r.span.attrs = [("agent_model", AttrValue.str verifier_agent.model),
        ("verification.passed", AttrValue.bool v.verified)] :=
  ⟨_, rfl, rfl, rfl⟩

/-- C10: the elapsed-time check of `_write_report` sits inside the
`async for` loop, so a stream with zero events shows no message from
`update_messages` at all — the printer sees only the initial
"Thinking about report..." line and the final mark-done, whatever `t0` is. -/
theorem write_report_no_events_no_messages (query : String)
    (search_results : List String) (t0 : Nat) (report : FinancialReportData) :
    ∃ w, write_report query search_results t0 [] (.ok report) = .ok w ∧
      w.shown = [] ∧
      w.printerLog =
        [.updateItem "writing" "Thinking about report..." false false,
         .markItemDone "writing"] :=
  ⟨_, rfl, rfl, rfl⟩

/-- C8 counterexample: the claim predicts that with a query argument present
the entry point does not read standard input; `main` of main.py has no such
argument and calls `input()` unconditionally, so the stdin flag disagrees
with `Option.isNone` of a present argument. -/
theorem main_entry_reads_stdin_counterexample :
    (main_entry (some "Apple Inc. Q3 results") "ignored").readStdin ≠
      (some "Apple Inc. Q3 results").isNone := by decide

/-- C8 amended: the entry point accepts no query argument; it always reads
exactly one line from standard input and uses that line as the query. -/
theorem main_entry_always_reads_stdin (a : Option String) (s : String) :
    main_entry a s = { readStdin := true, query := s } := rfl

/-! Helper lemmas for the Synthesize-stage progress bookkeeping. -/

theorem getLast?_cons_eq_getLastD (l : List Nat) :
    ∀ a : Nat, (a :: l).getLast? = some (l.getLastD a) := by
  induction l with
  | nil => intro a; rfl
  | cons b l ih =>
      intro a
      rw [List.getLast?_cons_cons, ih b, List.getLastD_cons]

theorem write_inv_init (t0 : Nat) : WriteInv t0 (write_progress_init t0) := by
  refine ⟨rfl, rfl, rfl, ?_, rfl⟩
  exact List.chain'_singleton t0

theorem write_inv_step (t0 : Nat) (s : WriteProgress) (t : Nat)
    (h : WriteInv t0 s) : WriteInv t0 (write_stream_step s t) := by
  obtain ⟨h1, h2, h3, h4, h5⟩ := h
  by_cases hc : t - s.last_update > 5 ∧ s.next_message < update_messages.length
  · have hstep : write_stream_step s t =
        { last_update := t
          next_message := s.next_message + 1
          printerLog := s.printerLog ++
            [.updateItem "writing" (update_messages.getD s.next_message "") false false]
          shown := s.shown ++ [update_messages.getD s.next_message ""]
          showTimes := s.showTimes ++ [t] } := by
      simp [write_stream_step, hc]
    rw [hstep]
    refine ⟨?_, ?_, ?_, ?_, ?_⟩
    · simp [h1]
    · rw [List.take_succ, ← h2]
      rw [List.getD_eq_getElem?_getD, List.getElem?_eq_getElem hc.2]
      simp
    · simp [h3]
    · rw [show t0 :: (s.showTimes ++ [t]) = (t0 :: s.showTimes) ++ [t] from rfl]
      rw [List.chain'_append]
      refine ⟨h4, List.chain'_singleton t, ?_⟩
      intro x hx y hy
      rw [getLast?_cons_eq_getLastD] at hx
      rw [List.head?_cons] at hy
      have hx2 : x = s.showTimes.getLastD t0 := by
        cases hx
        rfl
      have hy2 : y = t := by
        cases hy
        rfl
      subst hx2
      subst hy2
      have := hc.1
      omega
    · rw [List.getLastD_concat]
  · have hstep : write_stream_step s t = s := by
      simp [write_stream_step, hc]
    rw [hstep]
    exact ⟨h1, h2, h3, h4, h5⟩

theorem write_inv_loop (t0 : Nat) (ts : List Nat) :
    ∀ s : WriteProgress, WriteInv t0 s → WriteInv t0 (write_stream_loop ts s) := by
  induction ts with
  | nil => intro s h; exact h
  | cons t ts ih =>
      intro s h
      have step : write_stream_loop (t :: ts) s =
          write_stream_loop ts (write_stream_step s t) := rfl
      rw [step]
      exact ih _ (write_inv_step t0 s t h)

/-- C5: during stream consumption in `_write_report`, the cosmetic progress
messages shown are always an initial segment of the fixed 3-entry
`update_messages` list (hence in order and at most 3 of them, however long
the stream runs), and successive shows — seeded with the loop-entry clock
`t0` — are each more than 5 seconds after the previous update. -/
theorem write_report_progress_messages (query : String)
    (search_results : List String) (t0 : Nat) (ts : List Nat)
    (report : FinancialReportData) :
    ∃ w, write_report query search_results t0 ts (.ok report) = .ok w ∧
      w.shown.length ≤ 3 ∧
      w.shown = update_messages.take w.shown.length ∧
      List.Chain' (fun a b => a + 5 < b) (t0 :: w.showTimes) := by
  obtain ⟨h1, h2, h3, h4, h5⟩ :=
    write_inv_loop t0 ts (write_progress_init t0) (write_inv_init t0)
  refine ⟨_, rfl, ?_, ?_, h4⟩
  · have hl := congrArg List.length h2
    rw [List.length_take] at hl
    rw [hl]
    exact inf_le_right
  · rw [← h1]
    exact h2

/-- C7: when all four stages succeed, `run` pushes the final progress line
containing the report's short summary, finalizes the display with
`printer.end()` as the last printer operation, and prints to stdout the full
markdown report, the follow-up questions joined by newlines, and the
verification result. -/
theorem run_success_final_rendering (query : String)
    (plan : FinancialSearchPlan)
    (completion : List (FinancialSearchItem × Except String String))
    (t0 : Nat) (ts : List Nat) (report : FinancialReportData)
    (v : VerificationResult) :
    ∃ tr, manager_run query (.ok plan) completion t0 ts (.ok report) (.ok v) = .ok tr ∧
      tr.printerLog.getLast? = some .printerEnd ∧
      PrinterOp.updateItem "final_report"
        ("Report summary\n\n" ++ report.short_summary) true false ∈ tr.printerLog ∧
      ("Report:\n" ++ report.markdown_report) ∈ tr.stdoutLines ∧
      String.intercalate "\n" report.follow_up_questions ∈ tr.stdoutLines ∧
      renderVerification v ∈ tr.stdoutLines := by
  refine ⟨_, rfl, ?_, ?_, ?_, ?_, ?_⟩
  · exact List.getLast?_concat _
  · simp [List.mem_append]
  · simp
  · simp
  · simp
